import Mathlib

/-!
Verification of the NBA scores dashboard's data acquisition and
normalization layer (`src/data_manager.py`, `src/constants.py`).

The Python code is shallowly embedded: dynamically typed Python values
become the inductive `PyVal`; dictionary lookups, truthiness, arithmetic
comparisons and string methods are modelled as total Lean functions or as
`Except PyErr` computations where the Python operation can raise; each
`try ... except Exception: return []` wrapper becomes a `match` on the
`Except` result of the embedded body.
-/

/-- A dynamically typed Python value, covering the shapes that flow through
the data manager: `None`, ints, strings, booleans, lists and string-keyed
dicts. -/
inductive PyVal where
  | none : PyVal
  | int : Int → PyVal
  | str : String → PyVal
  | bool : Bool → PyVal
  | list : List PyVal → PyVal
  | dict : List (String × PyVal) → PyVal
deriving Repr

/-- Python `==` on the modelled values, structural on containers (the
values the data manager actually compares are game ids and team ids:
ints and strings; dict comparison is order-sensitive here, a
simplification that no compared value exercises). `bool` compares with
ints as 0/1, as in Python. -/
def pyEq : PyVal → PyVal → Bool
  | .none, .none => true
  | .int a, .int b => a == b
  | .int a, .bool b => a == (if b then 1 else 0)
  | .bool a, .int b => (if a then (1 : Int) else 0) == b
  | .str a, .str b => a == b
  | .bool a, .bool b => a == b
  | .list as, .list bs => goList as bs
  | .dict as, .dict bs => goDict as bs
  | _, _ => false
where
  goList : List PyVal → List PyVal → Bool
    | [], [] => true
    | a :: as, b :: bs => pyEq a b && goList as bs
    | _, _ => false
  goDict : List (String × PyVal) → List (String × PyVal) → Bool
    | [], [] => true
    | (k1, v1) :: as, (k2, v2) :: bs => k1 == k2 && pyEq v1 v2 && goDict as bs
    | _, _ => false

instance : BEq PyVal := ⟨pyEq⟩

/-- The Python exception classes the embedded code can raise. -/
inductive PyErr where
  | typeError : PyErr
  | attributeError : PyErr
  | valueError : PyErr
  | keyError : PyErr
  | indexError : PyErr
deriving BEq, DecidableEq, Repr

/-- `d.get(k, dflt)` on a string-keyed dict body. -/
def dictGet (d : List (String × PyVal)) (k : String) (dflt : PyVal) : PyVal :=
  match d.find? (fun p => p.1 == k) with
  | some p => p.2
  | .none => dflt

/-- Python truthiness: `None` and `False` are falsy, numbers are truthy iff
nonzero, strings/lists/dicts are truthy iff nonempty. -/
def pyTruthy : PyVal → Bool
  | .none => false
  | .int n => n != 0
  | .str s => s != ""
  | .bool b => b
  | .list l => !l.isEmpty
  | .dict d => !d.isEmpty

/-- Python `v == n` against an int literal (`bool` compares as 0/1, other
types compare unequal without raising). -/
def pyEqInt (v : PyVal) (n : Int) : Bool :=
  match v with
  | .int m => m == n
  | .bool b => (if b then (1 : Int) else 0) == n
  | _ => false

/-- Python `v <= n` against an int literal: raises `TypeError` unless `v`
is an int or a bool. -/
def pyLeInt (v : PyVal) (n : Int) : Except PyErr Bool :=
  match v with
  | .int m => .ok (m ≤ n)
  | .bool b => .ok ((if b then (1 : Int) else 0) ≤ n)
  | _ => .error .typeError

/-- Python `v >= n` against an int literal: raises `TypeError` unless `v`
is an int or a bool. -/
def pyGeInt (v : PyVal) (n : Int) : Except PyErr Bool :=
  match v with
  | .int m => .ok (m ≥ n)
  | .bool b => .ok ((if b then (1 : Int) else 0) ≥ n)
  | _ => .error .typeError

/-- Python `v - n` against an int literal: raises `TypeError` unless `v`
is an int or a bool. -/
def pySubInt (v : PyVal) (n : Int) : Except PyErr Int :=
  match v with
  | .int m => .ok (m - n)
  | .bool b => .ok ((if b then (1 : Int) else 0) - n)
  | _ => .error .typeError

/-- Python `str(v)` as used in f-strings. Container rendering is
simplified to a placeholder (no claim depends on it). -/
def pyStrOf : PyVal → String
  | .none => "None"
  | .int n => toString n
  | .str s => s
  | .bool b => if b then "True" else "False"
  | .list _ => "<list>"
  | .dict _ => "<dict>"

/-- Python `v.get(k, dflt)`: only dicts have `.get`; anything else raises
`AttributeError`. -/
def pyGet (v : PyVal) (k : String) (dflt : PyVal) : Except PyErr PyVal :=
  match v with
  | .dict d => .ok (dictGet d k dflt)
  | _ => .error .attributeError

/-- Does `pat` occur as a prefix of `l`? -/
def listStartsWith (pat l : List Char) : Bool :=
  match pat, l with
  | [], _ => true
  | _ :: _, [] => false
  | p :: ps, c :: cs => p == c && listStartsWith ps cs

/-- Does `pat` occur as a substring of `l`?  (Python `pat in s`; the empty
pattern is contained everywhere, as in Python.) -/
def listContainsSub (pat : List Char) : List Char → Bool
  | [] => pat.isEmpty
  | c :: cs => listStartsWith pat (c :: cs) || listContainsSub pat cs

/-- Python `s.startswith(pre)`. -/
def pyStartsWith (s pre : String) : Bool :=
  listStartsWith pre.data s.data

/-- Fuel-indexed worker for Python `str.split` with a nonempty separator
(the fuel is instantiated with the input length, which suffices). -/
def splitCharsF : Nat → List Char → List Char → List Char → List (List Char)
  | 0, _, acc, l => [acc.reverse ++ l]
  | fuel + 1, sep, acc, l =>
    match l with
    | [] => [acc.reverse]
    | c :: cs =>
      if !sep.isEmpty && listStartsWith sep (c :: cs) then
        acc.reverse :: splitCharsF fuel sep [] (List.drop (sep.length - 1) cs)
      else
        splitCharsF fuel sep (c :: acc) cs

/-- Python `s.split(sep)` for a nonempty separator. -/
def pyStrSplit (s sep : String) : List String :=
  (splitCharsF s.data.length sep.data [] s.data).map String.mk

/-- The numeric value of a digit string, if every character is a digit
and the string is nonempty. -/
def charsToNat? (l : List Char) : Option Nat :=
  if l.isEmpty || !l.all Char.isDigit then Option.none
  else some (l.foldl (fun acc c => acc * 10 + (c.toNat - Char.toNat '0')) 0)

/-- Python `int(s)` on strings: an optional sign followed by digits
(whitespace and underscore tolerance is not modelled; no input under
verification uses it). -/
def pyStrToInt? (s : String) : Option Int :=
  match s.data with
  | '-' :: rest => (fun (n : Nat) => -(n : Int)) <$> charsToNat? rest
  | '+' :: rest => (fun (n : Nat) => (n : Int)) <$> charsToNat? rest
  | l => (fun (n : Nat) => (n : Int)) <$> charsToNat? l

/-- One fuel-indexed pass of Python `str.replace`: replaces non-overlapping
occurrences of `pat` left to right. The fuel (always instantiated with the
input length, which suffices because `pat` is nonempty at every call site)
keeps the recursion structural so that proofs can evaluate it. -/
def replaceCharsF (fuel : Nat) (pat rep : List Char) (l : List Char) : List Char :=
  match fuel, l with
  | 0, l => l
  | _ + 1, [] => []
  | fuel + 1, c :: cs =>
    if !pat.isEmpty && listStartsWith pat (c :: cs) then
      rep ++ replaceCharsF fuel pat rep (List.drop (pat.length - 1) cs)
    else
      c :: replaceCharsF fuel pat rep cs

/-- Python `s.replace(pat, rep)` on strings (all patterns in the source
are nonempty literals). -/
def pyStrReplace (s pat rep : String) : String :=
  ⟨replaceCharsF s.data.length pat.data rep.data s.data⟩

/-- Python `v.replace(a, b)`: only strings have `.replace` among the
modelled values; anything else raises `AttributeError`. -/
def pyReplace (v : PyVal) (a b : String) : Except PyErr String :=
  match v with
  | .str s => .ok (pyStrReplace s a b)
  | _ => .error .attributeError

/-- Whether a value can be a dict key (Python hashability): lists and
dicts are unhashable. -/
def pyHashable : PyVal → Bool
  | .list _ => false
  | .dict _ => false
  | _ => true

/-- Python `needle in container` for the needles used by the source
(short string literals): substring test on strings, membership on lists,
key membership on dicts, `TypeError` otherwise. -/
def pyContains (needle : String) (container : PyVal) : Except PyErr Bool :=
  match container with
  | .str s => .ok (listContainsSub needle.data s.data)
  | .list l => .ok (l.contains (.str needle))
  | .dict d => .ok (d.any (fun p => p.1 == needle))
  | _ => .error .typeError

/-- Python `len(v)`: defined on strings, lists and dicts; `TypeError`
otherwise. -/
def pyLen : PyVal → Except PyErr Nat
  | .str s => .ok s.length
  | .list l => .ok l.length
  | .dict d => .ok d.length
  | _ => .error .typeError

/-- Python `v.split(sep)` for a nonempty separator: only strings have
`.split`; anything else raises `AttributeError`. -/
def pySplit (v : PyVal) (sep : String) : Except PyErr (List String) :=
  match v with
  | .str s => .ok (pyStrSplit s sep)
  | _ => .error .attributeError

/-- Python list indexing `l[i]` for a nonnegative index. -/
def pyIndex (l : List String) (i : Nat) : Except PyErr String :=
  match l.get? i with
  | some x => .ok x
  | _ => .error .indexError

/-- Python `for x in v`: lists yield their elements, strings their
characters, dicts their keys; other modelled values are not iterable and
raise `TypeError`. -/
def pyIterList : PyVal → Except PyErr (List PyVal)
  | .list l => .ok l
  | .str s => .ok (s.data.map (fun c => .str (String.singleton c)))
  | .dict d => .ok (.str <$> d.map Prod.fst)
  | _ => .error .typeError

/-- Python `int(v or 0)` as used for the historical `PTS` fields: `v or 0`
yields `v` when truthy and `0` otherwise; `int` accepts ints, bools and
integer-shaped strings, raises `ValueError` on other strings and
`TypeError` on the remaining types. -/
def pyIntOr0 (v : PyVal) : Except PyErr Int :=
  let w := if pyTruthy v then v else .int 0
  match w with
  | .int n => .ok n
  | .bool b => .ok (if b then 1 else 0)
  | .str s =>
    match pyStrToInt? s with
    | some n => .ok n
    | _ => .error .valueError
  | _ => .error .typeError

/-! ### Team directory (`constants.py` and `data_manager.py` lines 23-82) -/

/-- `ESPN_LOGO_BASE` from `constants.py`. -/
def ESPN_LOGO_BASE : String := "https://a.espncdn.com/i/teamlogos/nba/500"

/-- `NBA_API_TEAM_MAP` from `data_manager.py`: upstream tricode →
constants abbreviation. -/
def NBA_API_TEAM_MAP : List (String × String) :=
  [("ATL", "ATL"), ("BOS", "BOS"), ("BKN", "BKN"), ("CHA", "CHA"),
   ("CHI", "CHI"), ("CLE", "CLE"), ("DAL", "DAL"), ("DEN", "DEN"),
   ("DET", "DET"), ("GSW", "GSW"), ("HOU", "HOU"), ("IND", "IND"),
   ("LAC", "LAC"), ("LAL", "LAL"), ("MEM", "MEM"), ("MIA", "MIA"),
   ("MIL", "MIL"), ("MIN", "MIN"), ("NOP", "NOP"), ("NYK", "NYK"),
   ("OKC", "OKC"), ("ORL", "ORL"), ("PHI", "PHI"), ("PHX", "PHX"),
   ("POR", "POR"), ("SAC", "SAC"), ("SAS", "SAS"), ("TOR", "TOR"),
   ("UTA", "UTA"), ("WAS", "WAS")]

/-- `NBA_TEAMS` from `constants.py`: abbreviation → (name, logo). -/
def NBA_TEAMS : List (String × String × String) :=
  [("ATL", "Atlanta Hawks", ESPN_LOGO_BASE ++ "/atl.png"),
   ("BOS", "Boston Celtics", ESPN_LOGO_BASE ++ "/bos.png"),
   ("BKN", "Brooklyn Nets", ESPN_LOGO_BASE ++ "/bkn.png"),
   ("CHA", "Charlotte Hornets", ESPN_LOGO_BASE ++ "/cha.png"),
   ("CHI", "Chicago Bulls", ESPN_LOGO_BASE ++ "/chi.png"),
   ("CLE", "Cleveland Cavaliers", ESPN_LOGO_BASE ++ "/cle.png"),
   ("DAL", "Dallas Mavericks", ESPN_LOGO_BASE ++ "/dal.png"),
   ("DEN", "Denver Nuggets", ESPN_LOGO_BASE ++ "/den.png"),
   ("DET", "Detroit Pistons", ESPN_LOGO_BASE ++ "/det.png"),
   ("GSW", "Golden State Warriors", ESPN_LOGO_BASE ++ "/gs.png"),
   ("HOU", "Houston Rockets", ESPN_LOGO_BASE ++ "/hou.png"),
   ("IND", "Indiana Pacers", ESPN_LOGO_BASE ++ "/ind.png"),
   ("LAC", "LA Clippers", ESPN_LOGO_BASE ++ "/lac.png"),
   ("LAL", "Los Angeles Lakers", ESPN_LOGO_BASE ++ "/lal.png"),
   ("MEM", "Memphis Grizzlies", ESPN_LOGO_BASE ++ "/mem.png"),
   ("MIA", "Miami Heat", ESPN_LOGO_BASE ++ "/mia.png"),
   ("MIL", "Milwaukee Bucks", ESPN_LOGO_BASE ++ "/mil.png"),
   ("MIN", "Minnesota Timberwolves", ESPN_LOGO_BASE ++ "/min.png"),
   ("NOP", "New Orleans Pelicans", ESPN_LOGO_BASE ++ "/no.png"),
   ("NYK", "New York Knicks", ESPN_LOGO_BASE ++ "/ny.png"),
   ("OKC", "Oklahoma City Thunder", ESPN_LOGO_BASE ++ "/okc.png"),
   ("ORL", "Orlando Magic", ESPN_LOGO_BASE ++ "/orl.png"),
   ("PHI", "Philadelphia 76ers", ESPN_LOGO_BASE ++ "/phi.png"),
   ("PHX", "Phoenix Suns", ESPN_LOGO_BASE ++ "/phx.png"),
   ("POR", "Portland Trail Blazers", ESPN_LOGO_BASE ++ "/por.png"),
   ("SAC", "Sacramento Kings", ESPN_LOGO_BASE ++ "/sac.png"),
   ("SAS", "San Antonio Spurs", ESPN_LOGO_BASE ++ "/sa.png"),
   ("TOR", "Toronto Raptors", ESPN_LOGO_BASE ++ "/tor.png"),
   ("UTA", "Utah Jazz", ESPN_LOGO_BASE ++ "/utah.png"),
   ("WAS", "Washington Wizards", ESPN_LOGO_BASE ++ "/wsh.png")]

/-- The dict `get_team_info` returns: `abbrev`/`name`/`logo` keys.  The
field values stay dynamically typed because the fallback branch reuses the
raw tricode, which need not be a string. -/
structure TeamInfo where
  abbr : PyVal
  name : PyVal
  logo : PyVal
deriving Repr, BEq

/-- `get_team_info` (`data_manager.py` lines 57-82): alias-map the
tricode, look it up in the static table, fall back to a synthesized
identity.  `dict.get` with an unhashable key raises `TypeError`. -/
def get_team_info (tricode : PyVal) : Except PyErr TeamInfo := do
  if !pyHashable tricode then
    throw .typeError
  let our_abbrev :=
    match tricode with
    | .str s =>
      match NBA_API_TEAM_MAP.find? (fun (p : String × String) => p.1 == s) with
      | some p => PyVal.str p.2
      | _ => tricode
    | _ => tricode
  let team_info :=
    match our_abbrev with
    | .str s => NBA_TEAMS.find? (fun (p : String × String × String) => p.1 == s)
    | _ => Option.none
  match team_info with
  | some p => return ⟨our_abbrev, .str p.2.1, .str p.2.2⟩
  | _ => return ⟨tricode, tricode, .str ""⟩

/-! ### Status formatter (`data_manager.py` lines 85-137) -/

/-- Model of the standard-library pipeline in the not-started branch:
`datetime.fromisoformat` on the `Z`-normalized string, conversion to
`America/Chicago` via `pytz`, and `strftime("%I:%M %p CT")`.  This is
library code outside the repository; it is modelled as: the parse
succeeds exactly when the string starts with an ISO
`YYYY-MM-DD[T ]HH:MM:SS` shape, and the rendering shifts the wall-clock
time by a fixed UTC-6 offset into 12-hour form.  The claims under
verification depend only on parse success versus `ValueError`, never on
the rendered text (which daylight-saving rules would otherwise refine). -/
def isoToChicagoString (s : String) : Option String :=
  let cs := s.data
  let digit := fun (i : Nat) => (cs.getD i ' ').isDigit
  let isC := fun (i : Nat) (c : Char) => cs.getD i ' ' == c
  if cs.length ≥ 19 && digit 0 && digit 1 && digit 2 && digit 3 &&
      isC 4 '-' && digit 5 && digit 6 && isC 7 '-' && digit 8 && digit 9 &&
      (isC 10 'T' || isC 10 ' ') && digit 11 && digit 12 && isC 13 ':' &&
      digit 14 && digit 15 && isC 16 ':' && digit 17 && digit 18 then
    let toD := fun (i : Nat) => (cs.getD i '0').toNat - Char.toNat '0'
    let hh := toD 11 * 10 + toD 12
    let mm := toD 14 * 10 + toD 15
    let total := (hh * 60 + mm + 24 * 60 - 6 * 60) % (24 * 60)
    let h24 := total / 60
    let h12 := if h24 % 12 == 0 then 12 else h24 % 12
    let ampm := if h24 < 12 then "AM" else "PM"
    let pad2 := fun (n : Nat) => if n < 10 then "0" ++ toString n else toString n
    some (pad2 h12 ++ ":" ++ pad2 mm ++ " " ++ ampm ++ " CT")
  else
    Option.none

/-- The clock cleanup of `parse_game_status` (`data_manager.py` lines
124-127): strip the `PT` prefix marker, turn `M` into `:` and drop `S`,
then left-pad a leading colon with `0`.  The first `.replace` is a
dynamic attribute access and raises `AttributeError` on a non-string. -/
def render_clock (game_clock : PyVal) : Except PyErr String := do
  let c1 ← pyReplace game_clock "PT" ""
  let clock := pyStrReplace (pyStrReplace c1 "M" ":") "S" ""
  return if pyStartsWith clock ":" then "0" ++ clock else clock

/-- `parse_game_status` (`data_manager.py` lines 85-137).  The result is
a `PyVal` because the fallback branches return `gameStatusText`
unchanged, whatever its type.  Exceptions escaping the function are
surfaced in the `Except` layer; the not-started branch catches
`ValueError`/`AttributeError` around the timestamp parse as in the
source. -/
def parse_game_status (game_data : PyVal) : Except PyErr PyVal := do
  let game_status ← pyGet game_data "gameStatus" (.int 1)
  let game_status_text ← pyGet game_data "gameStatusText" (.str "")
  if pyEqInt game_status 1 then
    let game_time_utc ← pyGet game_data "gameTimeUTC" (.str "")
    -- the try/except (ValueError, AttributeError) around the timestamp
    -- parse collapses to an Option: `.replace` on a non-string
    -- (AttributeError) and a failed parse (ValueError) are both caught
    let rendered : Option String :=
      if pyTruthy game_time_utc then
        match pyReplace game_time_utc "Z" "+00:00" with
        | .ok s => isoToChicagoString s
        | .error _ => Option.none
      else
        Option.none
    match rendered with
    | some r => return .str r
    | _ => return if pyTruthy game_status_text then game_status_text else .str "Scheduled"
  else if pyEqInt game_status 2 then
    let period ← pyGet game_data "period" (.int 0)
    let game_clock ← pyGet game_data "gameClock" (.str "")
    if pyTruthy period && pyTruthy game_clock then
      let le4 ← pyLeInt period 4
      let period_str ←
        if le4 then
          pure ("Q" ++ pyStrOf period)
        else do
          let ot_num ← pySubInt period 4
          pure (if ot_num > 1 then "OT" ++ toString ot_num else "OT")
      let clock ← render_clock game_clock
      return .str (period_str ++ " " ++ clock)
    else
      return if pyTruthy game_status_text then game_status_text else .str "In Progress"
  else if pyEqInt game_status 3 then
    return .str "Final"
  else
    return if pyTruthy game_status_text then game_status_text else .str "Unknown"

/-! ### Stat normalizer (`data_manager.py` lines 140-167) -/

/-- The canonical nine-field per-team statistics record built by
`extract_team_stats_from_live` and `fetch_historical_boxscore_stats`.
Fields stay dynamically typed: the source stores whatever the payload
holds, including `None` for a missing individual field. -/
structure TeamStats where
  fg_made : PyVal
  fg_attempted : PyVal
  fg3_made : PyVal
  fg3_attempted : PyVal
  ft_made : PyVal
  ft_attempted : PyVal
  ast : PyVal
  reb : PyVal
  tov : PyVal
deriving Repr, BEq

/-- `extract_team_stats_from_live` (`data_manager.py` lines 140-167):
absent or falsy (in particular empty) `statistics` yields `None`; any
exception during extraction is caught and converted to `None`. -/
def extract_team_stats_from_live (team_data : PyVal) : Option TeamStats :=
  let body : Except PyErr (Option TeamStats) := do
    let statistics ← pyGet team_data "statistics" (.dict [])
    if !pyTruthy statistics then
      return Option.none
    let fgm ← pyGet statistics "fieldGoalsMade" PyVal.none
    let fga ← pyGet statistics "fieldGoalsAttempted" PyVal.none
    let fg3m ← pyGet statistics "threePointersMade" PyVal.none
    let fg3a ← pyGet statistics "threePointersAttempted" PyVal.none
    let ftm ← pyGet statistics "freeThrowsMade" PyVal.none
    let fta ← pyGet statistics "freeThrowsAttempted" PyVal.none
    let ast ← pyGet statistics "assists" PyVal.none
    let reb ← pyGet statistics "reboundsTotal" PyVal.none
    let tov ← pyGet statistics "turnovers" PyVal.none
    return some ⟨fgm, fga, fg3m, fg3a, ftm, fta, ast, reb, tov⟩
  match body with
  | .ok r => r
  | .error _ => Option.none

/-! ### Game records (the dicts assembled by the three fetchers) -/

/-- A `datetime.date` value. -/
structure PyDate where
  year : Int
  month : Int
  day : Int
deriving Repr, BEq, DecidableEq

/-- Zero-pad the decimal rendering of a nonnegative number to `w`
digits. -/
def padNum (w : Nat) (n : Int) : String :=
  let s := toString n.toNat
  if s.length ≥ w then s else String.mk (List.replicate (w - s.length) '0') ++ s

/-- `date.isoformat()`: `YYYY-MM-DD`. -/
def PyDate.isoformat (d : PyDate) : String :=
  padNum 4 d.year ++ "-" ++ padNum 2 d.month ++ "-" ++ padNum 2 d.day

/-- Lexicographic `date < date` as on `datetime.date`. -/
def PyDate.ltb (a b : PyDate) : Bool :=
  a.year < b.year ||
    (a.year == b.year && (a.month < b.month ||
      (a.month == b.month && a.day < b.day)))

/-- The per-side sub-dict of an assembled game (`abbrev`, `name`, `logo`,
`score`, `stats` keys). -/
structure SideRec where
  abbr : PyVal
  name : PyVal
  logo : PyVal
  score : PyVal
  stats : Option TeamStats
deriving Repr, BEq

/-- A game dict in the standard format assembled by the three fetchers. -/
structure GameRecord where
  id : PyVal
  date : PyDate
  status : PyVal
  is_scheduled : Bool
  home_team : SideRec
  away_team : SideRec
deriving Repr, BEq

/-! ### Live assembler (`data_manager.py` lines 199-287)

The upstream interactions are inputs of the embedding: `board` is the
result of `scoreboard.ScoreBoard().get_dict()` (or the exception that
call raised), and `liveBox` is the result of
`fetch_live_boxscore_stats` per game id (that helper catches its own
exceptions and returns a pair of optional stats, lines 170-196). -/

/-- Lines 252-259 of `fetch_live_games`: when either side's stats are
missing and the game is in progress or later, fetch the live box score
once per game id and fill only the missing sides. -/
def live_stats_fallback (liveBox : PyVal → Option TeamStats × Option TeamStats)
    (game_data game_status_code : PyVal)
    (home_stats away_stats : Option TeamStats) :
    Except PyErr (Option TeamStats × Option TeamStats) := do
  let need_box ←
    if home_stats.isNone || away_stats.isNone then pyGeInt game_status_code 2
    else pure false
  if need_box then
    let game_id ← pyGet game_data "gameId" PyVal.none
    if pyTruthy game_id then
      let (box_home, box_away) := liveBox game_id
      pure (if home_stats.isNone then box_home else home_stats,
            if away_stats.isNone then box_away else away_stats)
    else
      pure (home_stats, away_stats)
  else
    pure (home_stats, away_stats)

/-- The body of the per-game iteration of `fetch_live_games`
(`data_manager.py` lines 222-281). -/
def live_process_game (today : PyDate)
    (liveBox : PyVal → Option TeamStats × Option TeamStats)
    (game_data : PyVal) : Except PyErr GameRecord := do
  let home_team_data ← pyGet game_data "homeTeam" (.dict [])
  let away_team_data ← pyGet game_data "awayTeam" (.dict [])
  let home_tricode ← pyGet home_team_data "teamTricode" (.str "")
  let away_tricode ← pyGet away_team_data "teamTricode" (.str "")
  let home_team_info ← get_team_info home_tricode
  let away_team_info ← get_team_info away_tricode
  let home_score0 ← pyGet home_team_data "score" (.int 0)
  let away_score0 ← pyGet away_team_data "score" (.int 0)
  let game_status_code ← pyGet game_data "gameStatus" (.int 1)
  -- lines 240-242: scores forced to 0 for games that have not started
  let home_score := if pyEqInt game_status_code 1 then PyVal.int 0 else home_score0
  let away_score := if pyEqInt game_status_code 1 then PyVal.int 0 else away_score0
  let status ← parse_game_status game_data
  let home_stats := extract_team_stats_from_live home_team_data
  let away_stats := extract_team_stats_from_live away_team_data
  let (home_stats, away_stats) ←
    live_stats_fallback liveBox game_data game_status_code home_stats away_stats
  let gid ← pyGet game_data "gameId"
      (.str (today.isoformat ++ "-" ++ pyStrOf home_tricode ++ "-" ++ pyStrOf away_tricode))
  return {
    id := gid
    date := today
    status := status
    is_scheduled := pyEqInt game_status_code 1
    home_team := ⟨home_team_info.abbr, home_team_info.name, home_team_info.logo,
                  home_score, home_stats⟩
    away_team := ⟨away_team_info.abbr, away_team_info.name, away_team_info.logo,
                  away_score, away_stats⟩ }

/-- The `try`-block body of `fetch_live_games` (`data_manager.py` lines
209-283). -/
def fetch_live_games_body (today : PyDate) (board : Except PyErr PyVal)
    (liveBox : PyVal → Option TeamStats × Option TeamStats) :
    Except PyErr (List GameRecord) := do
  let games_data ← board
  let sb ← pyGet games_data "scoreboard" (.dict [])
  let games_list ← pyGet sb "games" (.list [])
  if !pyTruthy games_list then
    return []
  else
    let items ← pyIterList games_list
    items.foldlM (fun (games : List GameRecord) game_data => do
      let game ← live_process_game today liveBox game_data
      pure (games ++ [game])) []

/-- `fetch_live_games` (`data_manager.py` lines 199-287): the wrapping
`except Exception` turns any raised exception into an empty list (after
an `st.error` display side effect not modelled here). -/
def fetch_live_games (today : PyDate) (board : Except PyErr PyVal)
    (liveBox : PyVal → Option TeamStats × Option TeamStats) : List GameRecord :=
  match fetch_live_games_body today board liveBox with
  | .ok games => games
  | .error _ => []

/-! ### Historical assembler (`data_manager.py` lines 290-432)

`finder` is the first data frame of the `leaguegamefinder` response (or
the exception raised obtaining it); `histBox` is the result of
`fetch_historical_boxscore_stats` per game id — that helper catches its
own exceptions and returns a possibly-empty `team_id → stats` mapping
(lines 290-330), so it is modelled as a total association list. -/

/-- A data-frame row: field name → value (`row.get(k, dflt)` on a pandas
row never raises for the string keys used here). -/
abbrev Row := List (String × PyVal)

/-- A pandas data frame: uniform column names plus rows. -/
structure DataFrame where
  cols : List String
  rows : List Row
deriving Repr

/-- `df[c]` column extraction: raises `KeyError` when the column is
absent; a row missing the key yields `None` (pandas would yield NaN). -/
def dfColumnValues (df : DataFrame) (c : String) : Except PyErr (List PyVal) :=
  if df.cols.contains c then
    .ok (df.rows.map (fun r => dictGet r c PyVal.none))
  else
    .error .keyError

/-- `df[df[c] == v]` boolean-mask filtering. -/
def dfFilterEq (df : DataFrame) (c : String) (v : PyVal) : Except PyErr DataFrame := do
  let _ ← dfColumnValues df c
  return ⟨df.cols, df.rows.filter (fun r => pyEq (dictGet r c PyVal.none) v)⟩

/-- `pandas.Series.unique()`: values in order of first appearance. -/
def pandasUnique (vs : List PyVal) : List PyVal :=
  vs.foldl (fun acc v => if acc.contains v then acc else acc ++ [v]) []

/-- `dict.get(k)` on the `team_id → stats` box-score mapping: an
unhashable key raises `TypeError`, otherwise a missing key yields
`None`. -/
def pyAssocGet (d : List (PyVal × TeamStats)) (k : PyVal) :
    Except PyErr (Option TeamStats) :=
  if !pyHashable k then
    .error .typeError
  else
    .ok (match d.find? (fun p => pyEq p.1 k) with
         | some p => some p.2
         | _ => Option.none)

/-- The home/away assignment loop of `fetch_historical_games`
(`data_manager.py` lines 372-381): a row whose matchup contains `"@"`
is away, any other row is home; later rows overwrite earlier ones. -/
def assign_home_away (rows : List Row) : Except PyErr (Option Row × Option Row) :=
  rows.foldlM (fun (p : Option Row × Option Row) row => do
    let matchup := dictGet row "MATCHUP" (.str "")
    let hasAt ← pyContains "@" matchup
    if hasAt then pure (p.1, some row) else pure (some row, p.2))
    (Option.none, Option.none)

/-- Lines 372-386: the assignment loop plus the
first-row-is-home/second-is-away fallback when either side is missing
(the caller guarantees at least two rows, so the defaults are never
exercised). -/
def resolve_home_away (rows : List Row) : Except PyErr (Row × Row) := do
  let (home?, away?) ← assign_home_away rows
  match home?, away? with
  | some h, some a => pure (h, a)
  | _, _ => pure (rows.getD 0 [], rows.getD 1 [])

/-- The per-game-id body of `fetch_historical_games` (`data_manager.py`
lines 367-426), producing `none` for the `continue` on fewer than two
rows. -/
def hist_process_game (date : PyDate)
    (histBox : PyVal → List (PyVal × TeamStats))
    (games_df : DataFrame) (game_id : PyVal) :
    Except PyErr (Option GameRecord) := do
  let game_rows ← dfFilterEq games_df "GAME_ID" game_id
  if game_rows.rows.length < 2 then
    return Option.none
  else
    let (home_row, away_row) ← resolve_home_away game_rows.rows
    let home_abbrev := dictGet home_row "TEAM_ABBREVIATION" (.str "")
    let away_abbrev := dictGet away_row "TEAM_ABBREVIATION" (.str "")
    let home_team_info ← get_team_info home_abbrev
    let away_team_info ← get_team_info away_abbrev
    let home_score ← pyIntOr0 (dictGet home_row "PTS" (.int 0))
    let away_score ← pyIntOr0 (dictGet away_row "PTS" (.int 0))
    let boxscore_stats := histBox game_id
    let home_team_id := dictGet home_row "TEAM_ID" PyVal.none
    let away_team_id := dictGet away_row "TEAM_ID" PyVal.none
    let home_stats ← pyAssocGet boxscore_stats home_team_id
    let away_stats ← pyAssocGet boxscore_stats away_team_id
    return some {
      id := game_id
      date := date
      status := .str "Final"
      is_scheduled := false
      home_team := ⟨home_team_info.abbr, home_team_info.name, home_team_info.logo,
                    .int home_score, home_stats⟩
      away_team := ⟨away_team_info.abbr, away_team_info.name, away_team_info.logo,
                    .int away_score, away_stats⟩ }

/-- The `try`-block body of `fetch_historical_games` (`data_manager.py`
lines 346-428). -/
def fetch_historical_games_body (date : PyDate)
    (finder : Except PyErr DataFrame)
    (histBox : PyVal → List (PyVal × TeamStats)) :
    Except PyErr (List GameRecord) := do
  let games_df ← finder
  if games_df.rows.isEmpty then
    return []
  else
    let gid_col ← dfColumnValues games_df "GAME_ID"
    let game_ids := pandasUnique gid_col
    game_ids.foldlM (fun (games : List GameRecord) game_id => do
      let game? ← hist_process_game date histBox games_df game_id
      match game? with
      | some game => pure (games ++ [game])
      | _ => pure games) []

/-- `fetch_historical_games` (`data_manager.py` lines 333-432): any
exception becomes an empty list. -/
def fetch_historical_games (date : PyDate) (finder : Except PyErr DataFrame)
    (histBox : PyVal → List (PyVal × TeamStats)) : List GameRecord :=
  match fetch_historical_games_body date finder histBox with
  | .ok games => games
  | .error _ => []

/-! ### Future assembler (`data_manager.py` lines 435-549)

`dfsE` is the list of data frames of the `scoreboardv2` response, or the
exception raised obtaining it. -/

/-- Lines 484-501 of `fetch_future_games`: read the two sides'
abbreviations out of the LineScore data frame, matching rows on the team
ids from the header row. -/
def future_line_score_abbrevs (dfs : List DataFrame) (row : Row)
    (home_team_id away_team_id : PyVal) : Except PyErr (PyVal × PyVal) := do
  if dfs.length > 1 then
    let line_score_df := dfs.getD 1 ⟨[], []⟩
    let game_id := dictGet row "GAME_ID" PyVal.none
    let game_lines ←
      if line_score_df.cols.contains "GAME_ID" then
        dfFilterEq line_score_df "GAME_ID" game_id
      else
        pure line_score_df
    if !game_lines.rows.isEmpty then
      pure (game_lines.rows.foldl (fun (p : PyVal × PyVal) ls_row =>
        let team_abbrev := dictGet ls_row "TEAM_ABBREVIATION" (.str "")
        let team_id := dictGet ls_row "TEAM_ID" PyVal.none
        if pyEq team_id home_team_id then (team_abbrev, p.2)
        else if pyEq team_id away_team_id then (p.1, team_abbrev)
        else p) (.str "", .str ""))
    else
      pure (.str "", .str "")
  else
    pure (.str "", .str "")

/-- Lines 503-510 of `fetch_future_games`: when either abbreviation is
still falsy, parse the trailing six characters of the `GAMECODE` field
(`YYYYMMDD/VVVHHH`) as visitor and home codes, keeping any abbreviation
already found. -/
def future_gamecode_fallback (gamecode home_abbrev away_abbrev : PyVal) :
    Except PyErr (PyVal × PyVal) := do
  if !pyTruthy home_abbrev || !pyTruthy away_abbrev then
    let hasSlash ← pyContains "/" gamecode
    let glen ← pyLen gamecode
    if hasSlash && glen ≥ 17 then
      let teams_part ←
        if hasSlash then do
          let parts ← pySplit gamecode "/"
          pyIndex parts 1
        else
          pure ""
      if teams_part.length ≥ 6 then
        pure ((if pyTruthy home_abbrev then home_abbrev
               else .str ((teams_part.data.drop 3).take 3 |> String.mk)),
              (if pyTruthy away_abbrev then away_abbrev
               else .str (teams_part.data.take 3 |> String.mk)))
      else
        pure (home_abbrev, away_abbrev)
    else
      pure (home_abbrev, away_abbrev)
  else
    pure (home_abbrev, away_abbrev)

/-- The per-header-row body of `fetch_future_games` (`data_manager.py`
lines 470-543). -/
def future_process_game (date : PyDate) (dfs : List DataFrame)
    (row : Row) : Except PyErr GameRecord := do
  let home_team_id := dictGet row "HOME_TEAM_ID" PyVal.none
  let away_team_id := dictGet row "VISITOR_TEAM_ID" PyVal.none
  let _game_status_id := dictGet row "GAME_STATUS_ID" (.int 1)
  let game_status_text := dictGet row "GAME_STATUS_TEXT" (.str "Scheduled")
  let gamecode := dictGet row "GAMECODE" (.str "")
  let (home_abbrev, away_abbrev) ←
    future_line_score_abbrevs dfs row home_team_id away_team_id
  let (home_abbrev, away_abbrev) ←
    future_gamecode_fallback gamecode home_abbrev away_abbrev
  let home_team_info ← get_team_info home_abbrev
  let away_team_info ← get_team_info away_abbrev
  let _game_time_str := dictGet row "GAME_DATE_EST" (.str "")
  let status := if pyTruthy game_status_text then game_status_text else .str "Scheduled"
  let gid := dictGet row "GAME_ID"
      (.str (date.isoformat ++ "-" ++ pyStrOf away_abbrev ++ "-" ++ pyStrOf home_abbrev))
  return {
    id := gid
    date := date
    status := status
    is_scheduled := true
    home_team := ⟨home_team_info.abbr, home_team_info.name, home_team_info.logo,
                  .int 0, Option.none⟩
    away_team := ⟨away_team_info.abbr, away_team_info.name, away_team_info.logo,
                  .int 0, Option.none⟩ }

/-- The `try`-block body of `fetch_future_games` (`data_manager.py` lines
451-545). -/
def fetch_future_games_body (date : PyDate)
    (dfsE : Except PyErr (List DataFrame)) : Except PyErr (List GameRecord) := do
  let dfs ← dfsE
  if dfs.isEmpty || dfs.length < 1 then
    return []
  else
    let game_header_df := dfs.getD 0 ⟨[], []⟩
    if game_header_df.rows.isEmpty then
      return []
    else
      game_header_df.rows.foldlM (fun (games : List GameRecord) row => do
        let game ← future_process_game date dfs row
        pure (games ++ [game])) []

/-- `fetch_future_games` (`data_manager.py` lines 435-549): any exception
becomes an empty list ("future games may not be available - fail
gracefully"). -/
def fetch_future_games (date : PyDate)
    (dfsE : Except PyErr (List DataFrame)) : List GameRecord :=
  match fetch_future_games_body date dfsE with
  | .ok games => games
  | .error _ => []

/-! ### Date-routed orchestrator and cache (`data_manager.py` lines
552-575 and 631-639)

The strategy routing of `fetch_games_for_date` is source code; the cache
behaviour itself is the `@st.cache_data(ttl=60)` decorator plus
`fetch_games_for_date.clear()`, which are streamlit library code outside
the repository.  The cache is therefore modelled from the spec. -/

/-- The strategy selection of `fetch_games_for_date` (`data_manager.py`
lines 565-575), with the three upstream-dependent strategies supplied as
functions of the date. -/
def fetch_games_for_date_route (today date : PyDate)
    (live : List GameRecord)
    (hist fut : PyDate → List GameRecord) : List GameRecord :=
  if date == today then live
  else if PyDate.ltb date today then hist date
  else fut date

/-- Modelled from the spec: one entry of the date-keyed cache installed
by `@st.cache_data(ttl=60)` on `fetch_games_for_date` — the streamlit
cache implementation is not part of the repository.  An entry stores the
key date, the time the underlying fetch ran, and its result. -/
structure CacheEntry where
  date : PyDate
  time : Nat
  value : List GameRecord
deriving Repr, BEq

/-- Modelled from the spec: the state of the date-keyed cache. -/
structure CacheState where
  entries : List CacheEntry
deriving Repr, BEq

/-- The outcome of one cached fetch: the returned list, the successor
cache state, and whether the underlying (upstream-calling) fetch ran. -/
structure FetchOutcome where
  value : List GameRecord
  state : CacheState
  upstreamCalled : Bool
deriving Repr, BEq

/-- Modelled from the spec: a read through the TTL cache at time `t`
(seconds).  A stored entry for the same date younger than 60 seconds is
returned without calling the underlying fetch; otherwise the underlying
fetch runs and its result is stored. -/
def cached_fetch (upstream : PyDate → List GameRecord)
    (s : CacheState) (d : PyDate) (t : Nat) : FetchOutcome :=
  match s.entries.find? (fun e => decide (e.date = d) && decide (t < e.time + 60)) with
  | some e => ⟨e.value, s, false⟩
  | _ =>
    let v := upstream d
    ⟨v, ⟨⟨d, t, v⟩ :: s.entries⟩, true⟩

/-- Modelled from the spec: `trigger_refresh` (`data_manager.py` lines
631-639) calls `fetch_games_for_date.clear()`, discarding every cache
entry (the refresh counter and timestamp it also updates are UI state
with no effect on the cache). -/
def trigger_refresh (s : CacheState) : CacheState :=
  let _ := s
  ⟨[]⟩

/-! ### Filter stage (`data_manager.py` lines 578-600) -/

/-- `filter_games_by_teams`: an empty selection means no filtering;
otherwise keep games where either side's name is in the selection. -/
def filter_games_by_teams (games : List GameRecord)
    (selected_teams : List PyVal) : List GameRecord :=
  if selected_teams.isEmpty then games
  else games.filter (fun game =>
    selected_teams.contains game.home_team.name ||
      selected_teams.contains game.away_team.name)

/-! ### Concrete upstream responses used to evaluate the claims -/

/-- The scheduled-game invariant asserted by the spec: a scheduled record
has both scores 0 and both stats absent. -/
def scheduled_stats_absent (g : GameRecord) : Bool :=
  !g.is_scheduled ||
    (pyEq g.home_team.score (.int 0) && pyEq g.away_team.score (.int 0) &&
     g.home_team.stats.isNone && g.away_team.stats.isNone)

/-- A live scoreboard response holding one scheduled game (`gameStatus`
1) whose home block nevertheless carries a nonempty `statistics`
object — the shape that defeats the scheduled-game invariant. -/
def staleStatsBoard : Except PyErr PyVal :=
  .ok (.dict [("scoreboard", .dict [("games", .list [
    .dict [("gameId", .str "0012600001"), ("gameStatus", .int 1),
      ("homeTeam", .dict [("teamTricode", .str "BOS"), ("score", .int 0),
        ("statistics", .dict [("fieldGoalsMade", .int 5)])]),
      ("awayTeam", .dict [("teamTricode", .str "NYK"), ("score", .int 0)])]])])])

/-- A minimal live scoreboard response holding one scheduled game. -/
def minimalLiveBoard : Except PyErr PyVal :=
  .ok (.dict [("scoreboard", .dict [("games", .list [
    .dict [("gameStatus", .int 1)]])])])

/-- The record the live assembler builds from `minimalLiveBoard`. -/
def minimalLiveGame : GameRecord :=
  { id := .str "2026-01-15--"
    date := ⟨2026, 1, 15⟩
    status := .str "Scheduled"
    is_scheduled := true
    home_team := ⟨.str "", .str "", .str "", .int 0, Option.none⟩
    away_team := ⟨.str "", .str "", .str "", .int 0, Option.none⟩ }

/-- A two-row game-finder frame for one finished game. -/
def twoRowFinder : Except PyErr DataFrame :=
  .ok ⟨["GAME_ID", "MATCHUP", "TEAM_ABBREVIATION", "PTS", "TEAM_ID"],
    [[("GAME_ID", .str "g1"), ("MATCHUP", .str "AAA vs. BBB"),
      ("TEAM_ABBREVIATION", .str "AAA"), ("PTS", .int 100), ("TEAM_ID", .int 1)],
     [("GAME_ID", .str "g1"), ("MATCHUP", .str "BBB @ AAA"),
      ("TEAM_ABBREVIATION", .str "BBB"), ("PTS", .int 99), ("TEAM_ID", .int 2)]]⟩

/-- The record the historical assembler builds from `twoRowFinder` with
an empty box-score mapping. -/
def twoRowFinderGame : GameRecord :=
  { id := .str "g1"
    date := ⟨2026, 1, 10⟩
    status := .str "Final"
    is_scheduled := false
    home_team := ⟨.str "AAA", .str "AAA", .str "", .int 100, Option.none⟩
    away_team := ⟨.str "BBB", .str "BBB", .str "", .int 99, Option.none⟩ }

/-- A schedule response holding a single header row with only a status
text. -/
def minimalFutureDfs : Except PyErr (List DataFrame) :=
  .ok [⟨[], [[("GAME_STATUS_TEXT", .str "7:00 pm ET")]]⟩]

/-- The record the future assembler builds from `minimalFutureDfs`. -/
def minimalFutureGame : GameRecord :=
  { id := .str "2026-01-20--"
    date := ⟨2026, 1, 20⟩
    status := .str "7:00 pm ET"
    is_scheduled := true
    home_team := ⟨.str "", .str "", .str "", .int 0, Option.none⟩
    away_team := ⟨.str "", .str "", .str "", .int 0, Option.none⟩ }

/-! ### Generic lemmas about the embedded effects -/

theorem except_bind_ok {α β : Type} {x : Except PyErr α} {f : α → Except PyErr β}
    {b : β} : (x >>= f) = .ok b ↔ ∃ a, x = .ok a ∧ f a = .ok b := by
  cases x <;> simp [Bind.bind, Except.bind]

theorem except_pure_ok {α : Type} {a b : α} :
    (pure a : Except PyErr α) = .ok b ↔ a = b := by
  simp [pure, Except.pure]

/-- Membership in the result of the accumulate-by-append loops used by the
three assemblers: any member of the output list is a member of the initial
accumulator or satisfies the per-step postcondition. -/
theorem foldlM_append_mem {α : Type} (P : GameRecord → Prop)
    (step : List GameRecord → α → Except PyErr (List GameRecord))
    (hstep : ∀ acc a out, step acc a = .ok out → ∀ g, g ∈ out → g ∈ acc ∨ P g) :
    ∀ (items : List α) (init out : List GameRecord),
      List.foldlM step init items = .ok out → ∀ g, g ∈ out → g ∈ init ∨ P g := by
  intro items
  induction items with
  | nil =>
    intro init out h g hg
    simp only [List.foldlM_nil] at h
    obtain rfl := except_pure_ok.mp h
    exact Or.inl hg
  | cons a as ih =>
    intro init out h g hg
    rw [List.foldlM_cons] at h
    rcases except_bind_ok.mp h with ⟨acc', h1, h2⟩
    rcases ih acc' out h2 g hg with hin | hp
    · exact hstep init a acc' h1 g hin
    · exact Or.inr hp

/-! ### Claim C1 -/

/-- C1: for every one of the three assembly strategies (live, historical,
future), if any exception is raised during an upstream call or during
parsing of the upstream response — that is, if the embedded `try`-block
body evaluates to an exception — the strategy function returns an empty
game list for that date and never propagates the exception (its return
type is a plain list, and the wrapper maps every exception to `[]`). -/
theorem claim1_exceptions_contained
    (today date fdate : PyDate) (board : Except PyErr PyVal)
    (liveBox : PyVal → Option TeamStats × Option TeamStats)
    (finder : Except PyErr DataFrame) (histBox : PyVal → List (PyVal × TeamStats))
    (dfsE : Except PyErr (List DataFrame)) (e1 e2 e3 : PyErr) :
    (fetch_live_games_body today board liveBox = .error e1 →
      fetch_live_games today board liveBox = []) ∧
    (fetch_historical_games_body date finder histBox = .error e2 →
      fetch_historical_games date finder histBox = []) ∧
    (fetch_future_games_body fdate dfsE = .error e3 →
      fetch_future_games fdate dfsE = []) := by
  refine ⟨fun h => ?_, fun h => ?_, fun h => ?_⟩
  · unfold fetch_live_games
    rw [h]
  · unfold fetch_historical_games
    rw [h]
  · unfold fetch_future_games
    rw [h]

/-- C1 witness: each strategy evaluated where the upstream call itself
raised. -/
theorem claim1_exceptions_contained_witness :
    (fetch_live_games_body ⟨2026, 1, 15⟩ (.error .typeError)
        (fun _ => (Option.none, Option.none)) = .error .typeError ∧
      fetch_live_games ⟨2026, 1, 15⟩ (.error .typeError)
        (fun _ => (Option.none, Option.none)) = []) ∧
    (fetch_historical_games_body ⟨2026, 1, 10⟩ (.error .valueError) (fun _ => []) =
        .error .valueError ∧
      fetch_historical_games ⟨2026, 1, 10⟩ (.error .valueError) (fun _ => []) = []) ∧
    (fetch_future_games_body ⟨2026, 1, 20⟩ (.error .keyError) = .error .keyError ∧
      fetch_future_games ⟨2026, 1, 20⟩ (.error .keyError) = []) :=
  ⟨⟨rfl, (claim1_exceptions_contained ⟨2026, 1, 15⟩ ⟨2026, 1, 10⟩ ⟨2026, 1, 20⟩
      (.error .typeError) (fun _ => (Option.none, Option.none)) (.error .valueError)
      (fun _ => []) (.error .keyError) .typeError .valueError .keyError).1 rfl⟩,
   ⟨rfl, (claim1_exceptions_contained ⟨2026, 1, 15⟩ ⟨2026, 1, 10⟩ ⟨2026, 1, 20⟩
      (.error .typeError) (fun _ => (Option.none, Option.none)) (.error .valueError)
      (fun _ => []) (.error .keyError) .typeError .valueError .keyError).2.1 rfl⟩,
   ⟨rfl, (claim1_exceptions_contained ⟨2026, 1, 15⟩ ⟨2026, 1, 10⟩ ⟨2026, 1, 20⟩
      (.error .typeError) (fun _ => (Option.none, Option.none)) (.error .valueError)
      (fun _ => []) (.error .keyError) .typeError .valueError .keyError).2.2 rfl⟩⟩

/-! ### Claim C4 -/

/-- C4 counterexample: the claim says `"PT11M30.00S"` renders as
`"11:30"`, but the source's three substitutions keep the fractional
seconds: the clock renders as `"11:30.00"`, which is not `"11:30"`. -/
theorem claim4_counterexample :
    render_clock (.str "PT11M30.00S") = .ok "11:30.00" ∧
    ("11:30.00" : String) ≠ "11:30" :=
  ⟨rfl, by decide⟩

/-- C4 amended: for an in-progress game (statusCode 2) with period and
clock present, the clock `"PT11M30.00S"` renders as `"11:30.00"` (the
`PT` marker is stripped, `M` becomes `:`, `S` is dropped, and fractional
seconds are kept), and `"PT0M5S"` renders as `"0:5"` (single-digit
seconds not zero-padded); a leading colon would be left-padded with
`"0"`. -/
theorem claim4_clock_rendering :
    parse_game_status (.dict [("gameStatus", .int 2), ("period", .int 2),
      ("gameClock", .str "PT11M30.00S")]) = .ok (.str "Q2 11:30.00") ∧
    parse_game_status (.dict [("gameStatus", .int 2), ("period", .int 2),
      ("gameClock", .str "PT0M5S")]) = .ok (.str "Q2 0:5") ∧
    render_clock (.str "PT11M30.00S") = .ok "11:30.00" ∧
    render_clock (.str "PT0M5S") = .ok "0:5" :=
  ⟨rfl, rfl, rfl, rfl⟩

/-! ### Claim C5 -/

/-- C5 counterexample: the alias table contains no `"GS"` entry, so
`resolve("GS")` falls through to the synthesized fallback identity while
`resolve("GSW")` resolves to the Golden State entry — the two results
differ. -/
theorem claim5_counterexample :
    get_team_info (.str "GS") = .ok ⟨.str "GS", .str "GS", .str ""⟩ ∧
    get_team_info (.str "GSW") =
      .ok ⟨.str "GSW", .str "Golden State Warriors",
           .str (ESPN_LOGO_BASE ++ "/gs.png")⟩ ∧
    ("GS" : String) ≠ "Golden State Warriors" :=
  ⟨rfl, rfl, by decide⟩

/-- C5 amended: team resolution applies the alias table before the
canonical-table lookup, but the alias table is the identity on its 30
entries and holds no divergent alias at all; `resolve("GSW")` returns the
Golden State identity, while `resolve("GS")` synthesizes the fallback
identity with code = name = `"GS"` and an empty logo. -/
theorem claim5_alias_identity :
    NBA_API_TEAM_MAP.all (fun p => p.1 == p.2) = true ∧
    get_team_info (.str "GSW") =
      .ok ⟨.str "GSW", .str "Golden State Warriors",
           .str (ESPN_LOGO_BASE ++ "/gs.png")⟩ ∧
    get_team_info (.str "GS") = .ok ⟨.str "GS", .str "GS", .str ""⟩ :=
  ⟨rfl, rfl, rfl⟩

/-! ### Claim C6 -/

/-- C6: the stat normalizer distinguishes absence from zero — a team
payload with no statistics record yields `None`, while a statistics
payload carrying `fieldGoalsMade = 0` and `fieldGoalsAttempted = 0`
yields a stat record carrying those exact zero values, not `None`. -/
theorem claim6_absence_vs_zero :
    (∀ td : List (String × PyVal),
      td.find? (fun p => p.1 == "statistics") = Option.none →
      extract_team_stats_from_live (.dict td) = Option.none) ∧
    (∀ td stats : List (String × PyVal),
      dictGet td "statistics" (.dict []) = .dict stats →
      dictGet stats "fieldGoalsMade" PyVal.none = .int 0 →
      dictGet stats "fieldGoalsAttempted" PyVal.none = .int 0 →
      ∃ r : TeamStats, extract_team_stats_from_live (.dict td) = some r ∧
        r.fg_made = .int 0 ∧ r.fg_attempted = .int 0) := by
  constructor
  · intro td h
    unfold extract_team_stats_from_live
    simp [pyGet, dictGet, h, pyTruthy, Bind.bind, Except.bind, pure, Except.pure]
  · intro td stats h1 h2 h3
    have hne : stats.isEmpty = false := by
      cases stats with
      | nil => simp [dictGet] at h2
      | cons a l => rfl
    refine ⟨⟨dictGet stats "fieldGoalsMade" PyVal.none,
             dictGet stats "fieldGoalsAttempted" PyVal.none,
             dictGet stats "threePointersMade" PyVal.none,
             dictGet stats "threePointersAttempted" PyVal.none,
             dictGet stats "freeThrowsMade" PyVal.none,
             dictGet stats "freeThrowsAttempted" PyVal.none,
             dictGet stats "assists" PyVal.none,
             dictGet stats "reboundsTotal" PyVal.none,
             dictGet stats "turnovers" PyVal.none⟩, ?_, h2, h3⟩
    unfold extract_team_stats_from_live
    simp [pyGet, h1, pyTruthy, hne, Bind.bind, Except.bind, pure, Except.pure]

/-- C6 witness: an absent payload and a zero-valued payload evaluated
concretely. -/
theorem claim6_absence_vs_zero_witness :
    (([("score", PyVal.int 10)] : List (String × PyVal)).find?
        (fun p => p.1 == "statistics") = Option.none ∧
      extract_team_stats_from_live (.dict [("score", PyVal.int 10)]) = Option.none) ∧
    (dictGet [("statistics", .dict [("fieldGoalsMade", PyVal.int 0),
        ("fieldGoalsAttempted", PyVal.int 0)])] "statistics" (.dict []) =
        .dict [("fieldGoalsMade", PyVal.int 0), ("fieldGoalsAttempted", PyVal.int 0)] ∧
      ∃ r : TeamStats,
        extract_team_stats_from_live (.dict [("statistics",
          .dict [("fieldGoalsMade", PyVal.int 0),
                 ("fieldGoalsAttempted", PyVal.int 0)])]) = some r ∧
        r.fg_made = .int 0 ∧ r.fg_attempted = .int 0) :=
  ⟨⟨rfl, claim6_absence_vs_zero.1 [("score", PyVal.int 10)] rfl⟩,
   ⟨rfl, claim6_absence_vs_zero.2
      [("statistics", .dict [("fieldGoalsMade", PyVal.int 0),
        ("fieldGoalsAttempted", PyVal.int 0)])]
      [("fieldGoalsMade", PyVal.int 0), ("fieldGoalsAttempted", PyVal.int 0)]
      rfl rfl rfl⟩⟩

/-! ### Claim C10 -/

/-- C10: a present-but-empty statistics object is treated exactly like a
missing one — the normalizer returns `None`, not a record of nine absent
fields. -/
theorem claim10_empty_statistics_absent
    (td : List (String × PyVal)) (kv : String × PyVal)
    (hfind : td.find? (fun p => p.1 == "statistics") = some kv)
    (hempty : kv.2 = .dict []) :
    extract_team_stats_from_live (.dict td) = Option.none := by
  unfold extract_team_stats_from_live
  simp [pyGet, dictGet, hfind, hempty, pyTruthy, Bind.bind, Except.bind, pure, Except.pure]

/-- C10 witness: a payload whose statistics field is present and empty. -/
theorem claim10_empty_statistics_absent_witness :
    ([("statistics", PyVal.dict [])] : List (String × PyVal)).find?
        (fun p => p.1 == "statistics") = some ("statistics", PyVal.dict []) ∧
    extract_team_stats_from_live (.dict [("statistics", PyVal.dict [])]) =
      Option.none :=
  ⟨rfl, claim10_empty_statistics_absent [("statistics", PyVal.dict [])]
    ("statistics", PyVal.dict []) rfl rfl⟩

/-! ### Claim C7 -/

/-- C7: in historical assembly, for a game id with two rows of which
exactly one has a matchup string containing `"@"`, the row without `"@"`
is assigned home and the row with `"@"` away — in either arrival
order. -/
theorem claim7_matchup_home_away
    (r1 r2 : Row) (m1 m2 : String)
    (h1 : dictGet r1 "MATCHUP" (.str "") = .str m1)
    (h2 : dictGet r2 "MATCHUP" (.str "") = .str m2)
    (hno : pyContains "@" (.str m1) = .ok false)
    (hyes : pyContains "@" (.str m2) = .ok true) :
    resolve_home_away [r1, r2] = .ok (r1, r2) ∧
    resolve_home_away [r2, r1] = .ok (r1, r2) := by
  constructor <;>
    simp [resolve_home_away, assign_home_away, List.foldlM_cons, List.foldlM_nil,
      h1, h2, hno, hyes, Bind.bind, Except.bind, pure, Except.pure]

/-- C7 witness: two concrete rows, `"NYK vs. BOS"` (home) and
`"BOS @ NYK"` (away), in both orders. -/
theorem claim7_matchup_home_away_witness :
    dictGet [("MATCHUP", PyVal.str "NYK vs. BOS")] "MATCHUP" (.str "") =
      .str "NYK vs. BOS" ∧
    dictGet [("MATCHUP", PyVal.str "BOS @ NYK")] "MATCHUP" (.str "") =
      .str "BOS @ NYK" ∧
    pyContains "@" (.str "NYK vs. BOS") = .ok false ∧
    pyContains "@" (.str "BOS @ NYK") = .ok true ∧
    resolve_home_away [[("MATCHUP", PyVal.str "NYK vs. BOS")],
        [("MATCHUP", PyVal.str "BOS @ NYK")]] =
      .ok ([("MATCHUP", PyVal.str "NYK vs. BOS")],
        [("MATCHUP", PyVal.str "BOS @ NYK")]) ∧
    resolve_home_away [[("MATCHUP", PyVal.str "BOS @ NYK")],
        [("MATCHUP", PyVal.str "NYK vs. BOS")]] =
      .ok ([("MATCHUP", PyVal.str "NYK vs. BOS")],
        [("MATCHUP", PyVal.str "BOS @ NYK")]) :=
  ⟨rfl, rfl, rfl, rfl,
   (claim7_matchup_home_away [("MATCHUP", PyVal.str "NYK vs. BOS")]
     [("MATCHUP", PyVal.str "BOS @ NYK")] "NYK vs. BOS" "BOS @ NYK"
     rfl rfl rfl rfl).1,
   (claim7_matchup_home_away [("MATCHUP", PyVal.str "NYK vs. BOS")]
     [("MATCHUP", PyVal.str "BOS @ NYK")] "NYK vs. BOS" "BOS @ NYK"
     rfl rfl rfl rfl).2⟩

/-! ### Claim C8 -/

/-- C8 (modelled from the spec, since the cache machinery is streamlit's
`st.cache_data`, not repository code): within the 60-second TTL window a
second fetch for the same date returns the value of the one underlying
fetch without calling upstream again and leaves the cache unchanged, and
after `trigger_refresh` clears the cache, the next fetch calls upstream
again even though the TTL has not elapsed. -/
theorem claim8_cache_single_flight
    (upstream : PyDate → List GameRecord) (s : CacheState) (d : PyDate)
    (t1 t2 : Nat) :
    ((cached_fetch upstream s d t1).upstreamCalled = true →
      t2 < t1 + 60 →
      cached_fetch upstream (cached_fetch upstream s d t1).state d t2 =
        ⟨(cached_fetch upstream s d t1).value,
         (cached_fetch upstream s d t1).state, false⟩) ∧
    (cached_fetch upstream (trigger_refresh (cached_fetch upstream s d t1).state) d t2 =
      ⟨upstream d, ⟨[⟨d, t2, upstream d⟩]⟩, true⟩) := by
  constructor
  · intro hcall ht
    unfold cached_fetch at hcall ⊢
    cases hfind : s.entries.find?
        (fun e => decide (e.date = d) && decide (t2 < e.time + 60)) with
    | none =>
      cases hfind1 : s.entries.find?
          (fun e => decide (e.date = d) && decide (t1 < e.time + 60)) with
      | none =>
        simp only [hfind1]
        rw [List.find?_cons]
        simp [ht]
      | some e => simp [hfind1] at hcall
    | some e =>
      cases hfind1 : s.entries.find?
          (fun e => decide (e.date = d) && decide (t1 < e.time + 60)) with
      | none =>
        simp only [hfind1]
        rw [List.find?_cons]
        simp [ht]
      | some e1 => simp [hfind1] at hcall
  · unfold trigger_refresh cached_fetch
    simp

/-- C8 witness: an empty cache, one fetch at `t = 0`, a second at
`t = 30` inside the window, and a refreshed fetch. -/
theorem claim8_cache_single_flight_witness :
    ((cached_fetch (fun _ => []) ⟨[]⟩ ⟨2026, 1, 15⟩ 0).upstreamCalled = true ∧
      (30 : Nat) < 0 + 60 ∧
      cached_fetch (fun _ => [])
          (cached_fetch (fun _ => []) ⟨[]⟩ ⟨2026, 1, 15⟩ 0).state ⟨2026, 1, 15⟩ 30 =
        ⟨(cached_fetch (fun _ => []) ⟨[]⟩ ⟨2026, 1, 15⟩ 0).value,
         (cached_fetch (fun _ => []) ⟨[]⟩ ⟨2026, 1, 15⟩ 0).state, false⟩) ∧
    (cached_fetch (fun _ => [])
        (trigger_refresh (cached_fetch (fun _ => []) ⟨[]⟩ ⟨2026, 1, 15⟩ 0).state)
        ⟨2026, 1, 15⟩ 30 =
      ⟨[], ⟨[⟨⟨2026, 1, 15⟩, 30, []⟩]⟩, true⟩) :=
  ⟨⟨rfl, by decide,
    (claim8_cache_single_flight (fun _ => []) ⟨[]⟩ ⟨2026, 1, 15⟩ 0 30).1 rfl
      (by decide)⟩,
   (claim8_cache_single_flight (fun _ => []) ⟨[]⟩ ⟨2026, 1, 15⟩ 0 30).2⟩

/-! ### Claim C9 -/

/-- C9: the filter stage is idempotent — filtering an already-filtered
game list with the same allow-list (including the empty one) changes
nothing. -/
theorem claim9_filter_idempotent (games : List GameRecord) (T : List PyVal) :
    filter_games_by_teams (filter_games_by_teams games T) T =
      filter_games_by_teams games T := by
  unfold filter_games_by_teams
  by_cases hT : T.isEmpty
  · simp [hT]
  · simp only [hT, if_false, Bool.false_eq_true, List.filter_filter, Bool.and_self]

/-! ### Claim C2 -/

/-- Per-game lemma for the live assembler: however the per-game body
succeeds, a record marked scheduled has both scores forced to 0. -/
theorem live_process_game_scheduled (today : PyDate)
    (liveBox : PyVal → Option TeamStats × Option TeamStats)
    (gd : PyVal) (g : GameRecord)
    (h : live_process_game today liveBox gd = .ok g) :
    g.is_scheduled = true →
    g.home_team.score = .int 0 ∧ g.away_team.score = .int 0 := by
  intro hs
  simp only [live_process_game, except_bind_ok, except_pure_ok] at h
  obtain ⟨a1, -, a2, -, a3, -, a4, -, a5, -, a6, -, a7, -, a8, -, a9, -, a10, -,
    a11, -, h⟩ := h
  obtain ⟨s1, s2⟩ := a11
  simp only [except_bind_ok, except_pure_ok] at h
  obtain ⟨a12, -, hrec⟩ := h
  subst hrec
  simp only [GameRecord.is_scheduled] at hs
  simp [hs]

/-- Per-game lemma for the historical assembler: any produced record is
marked not scheduled. -/
theorem hist_process_game_final (date : PyDate)
    (histBox : PyVal → List (PyVal × TeamStats))
    (games_df : DataFrame) (game_id : PyVal) (g : GameRecord)
    (h : hist_process_game date histBox games_df game_id = .ok (some g)) :
    g.is_scheduled = false := by
  simp only [hist_process_game, except_bind_ok, except_pure_ok] at h
  obtain ⟨a1, -, h⟩ := h
  by_cases hlen : a1.rows.length < 2
  · simp only [hlen, if_true, except_pure_ok] at h
    cases h
  · simp only [hlen, if_false, except_bind_ok, except_pure_ok] at h
    obtain ⟨a2, -, h⟩ := h
    obtain ⟨hr, ar⟩ := a2
    simp only [except_bind_ok, except_pure_ok] at h
    obtain ⟨a3, -, a4, -, a5, -, a6, -, a7, -, a8, -, hrec⟩ := h
    obtain ⟨rfl⟩ : _ = g := Option.some.inj hrec
    rfl

/-- Per-game lemma for the future assembler: any produced record is
marked scheduled with zero scores and absent stats on both sides. -/
theorem future_process_game_scheduled (date : PyDate) (dfs : List DataFrame)
    (row : Row) (g : GameRecord)
    (h : future_process_game date dfs row = .ok g) :
    g.is_scheduled = true ∧ g.home_team.score = .int 0 ∧
      g.away_team.score = .int 0 ∧ g.home_team.stats = Option.none ∧
      g.away_team.stats = Option.none := by
  simp only [future_process_game, except_bind_ok, except_pure_ok] at h
  obtain ⟨a1, -, h⟩ := h
  obtain ⟨b1, b2⟩ := a1
  simp only [except_bind_ok, except_pure_ok] at h
  obtain ⟨a2, -, h⟩ := h
  obtain ⟨c1, c2⟩ := a2
  simp only [except_bind_ok, except_pure_ok] at h
  obtain ⟨a3, -, a4, -, hrec⟩ := h
  subst hrec
  exact ⟨rfl, rfl, rfl, rfl, rfl⟩

/-- C2 corrected: at a concrete live-scoreboard response with one
`gameStatus = 1` game whose home block carries a nonempty `statistics`
object, the assembled list violates the claimed invariant — the record
is scheduled, yet its home stats are present, so the claim as stated is
false. -/
theorem claim2_counterexample :
    ((fetch_live_games ⟨2026, 1, 15⟩ staleStatsBoard
      (fun _ => (Option.none, Option.none))).all scheduled_stats_absent) = false :=
  rfl

/-- C2 amended: every historical record is marked not scheduled; every
future record is marked scheduled with zero scores and absent stats;
every live record marked scheduled (statusCode 1) has both scores forced
to 0 — but its stats are whatever the normalizer extracted from the
scoreboard payload, so they are absent only when the payload carries no
nonempty statistics block. -/
theorem claim2_scheduled_invariant :
    (∀ (today : PyDate) (board : Except PyErr PyVal)
       (liveBox : PyVal → Option TeamStats × Option TeamStats) (g : GameRecord),
       g ∈ fetch_live_games today board liveBox →
       g.is_scheduled = true →
       g.home_team.score = .int 0 ∧ g.away_team.score = .int 0) ∧
    (∀ (date : PyDate) (finder : Except PyErr DataFrame)
       (histBox : PyVal → List (PyVal × TeamStats)) (g : GameRecord),
       g ∈ fetch_historical_games date finder histBox →
       g.is_scheduled = false) ∧
    (∀ (date : PyDate) (dfsE : Except PyErr (List DataFrame)) (g : GameRecord),
       g ∈ fetch_future_games date dfsE →
       g.is_scheduled = true ∧ g.home_team.score = .int 0 ∧
         g.away_team.score = .int 0 ∧ g.home_team.stats = Option.none ∧
         g.away_team.stats = Option.none) := by
  refine ⟨?_, ?_, ?_⟩
  · intro today board liveBox g hg
    unfold fetch_live_games at hg
    cases hb : fetch_live_games_body today board liveBox with
    | error e => rw [hb] at hg; cases hg
    | ok l =>
      rw [hb] at hg
      simp only [fetch_live_games_body, except_bind_ok, except_pure_ok] at hb
      obtain ⟨a1, -, a2, -, a3, -, hb⟩ := hb
      by_cases htr : (!pyTruthy a3) = true
      · rw [if_pos htr] at hb
        obtain rfl := except_pure_ok.mp hb
        cases hg
      · rw [if_neg htr] at hb
        rcases except_bind_ok.mp hb with ⟨items, -, hfold⟩
        have hres := foldlM_append_mem
          (fun g => g.is_scheduled = true →
            g.home_team.score = .int 0 ∧ g.away_team.score = .int 0)
          _ (fun acc a out hout g hgo => by
            rcases except_bind_ok.mp hout with ⟨gr, hpg, hpure⟩
            rcases except_pure_ok.mp hpure with rfl
            rcases List.mem_append.mp hgo with hin | hone
            · exact Or.inl hin
            · obtain rfl := List.mem_singleton.mp hone
              exact Or.inr (live_process_game_scheduled _ _ _ _ hpg))
          items [] l hfold g hg
        rcases hres with hnil | hp
        · cases hnil
        · exact hp
  · intro date finder histBox g hg
    unfold fetch_historical_games at hg
    cases hb : fetch_historical_games_body date finder histBox with
    | error e => rw [hb] at hg; cases hg
    | ok l =>
      rw [hb] at hg
      simp only [fetch_historical_games_body, except_bind_ok, except_pure_ok] at hb
      obtain ⟨a1, -, hb⟩ := hb
      by_cases hemp : a1.rows.isEmpty = true
      · rw [if_pos hemp] at hb
        obtain rfl := except_pure_ok.mp hb
        cases hg
      · rw [if_neg hemp] at hb
        rcases except_bind_ok.mp hb with ⟨col, -, hfold⟩
        have hres := foldlM_append_mem (fun g => g.is_scheduled = false)
          _ (fun acc a out hout g hgo => by
            rcases except_bind_ok.mp hout with ⟨gq, hpg, hrest⟩
            cases gq with
            | none =>
              rcases except_pure_ok.mp hrest with rfl
              exact Or.inl hgo
            | some gr =>
              rcases except_pure_ok.mp hrest with rfl
              rcases List.mem_append.mp hgo with hin | hone
              · exact Or.inl hin
              · obtain rfl := List.mem_singleton.mp hone
                exact Or.inr (hist_process_game_final _ _ _ _ _ hpg))
          (pandasUnique col) [] l hfold g hg
        rcases hres with hnil | hp
        · cases hnil
        · exact hp
  · intro date dfsE g hg
    unfold fetch_future_games at hg
    cases hb : fetch_future_games_body date dfsE with
    | error e => rw [hb] at hg; cases hg
    | ok l =>
      rw [hb] at hg
      simp only [fetch_future_games_body, except_bind_ok, except_pure_ok] at hb
      obtain ⟨dfs, -, hb⟩ := hb
      by_cases hemp : (dfs.isEmpty || decide (dfs.length < 1)) = true
      · rw [if_pos hemp] at hb
        obtain rfl := except_pure_ok.mp hb
        cases hg
      · rw [if_neg hemp] at hb
        by_cases hemp2 : (dfs.getD 0 ⟨[], []⟩).rows.isEmpty = true
        · rw [if_pos hemp2] at hb
          obtain rfl := except_pure_ok.mp hb
          cases hg
        · rw [if_neg hemp2] at hb
          have hres := foldlM_append_mem
            (fun g => g.is_scheduled = true ∧ g.home_team.score = .int 0 ∧
              g.away_team.score = .int 0 ∧ g.home_team.stats = Option.none ∧
              g.away_team.stats = Option.none)
            _ (fun acc a out hout g hgo => by
              rcases except_bind_ok.mp hout with ⟨gr, hpg, hpure⟩
              rcases except_pure_ok.mp hpure with rfl
              rcases List.mem_append.mp hgo with hin | hone
              · exact Or.inl hin
              · obtain rfl := List.mem_singleton.mp hone
                exact Or.inr (future_process_game_scheduled _ _ _ _ hpg))
            (dfs.getD 0 ⟨[], []⟩).rows [] l hb g hg
          rcases hres with hnil | hp
          · cases hnil
          · exact hp

/-- C2 witness: the three amended conjuncts applied to concrete upstream
responses — a minimal scheduled live game, a two-row finished historical
game, and a single-row future schedule. -/
theorem claim2_scheduled_invariant_witness :
    (minimalLiveGame ∈ fetch_live_games ⟨2026, 1, 15⟩ minimalLiveBoard
        (fun _ => (Option.none, Option.none)) ∧
      minimalLiveGame.is_scheduled = true ∧
      minimalLiveGame.home_team.score = .int 0 ∧
      minimalLiveGame.away_team.score = .int 0) ∧
    (twoRowFinderGame ∈ fetch_historical_games ⟨2026, 1, 10⟩ twoRowFinder
        (fun _ => []) ∧
      twoRowFinderGame.is_scheduled = false) ∧
    (minimalFutureGame ∈ fetch_future_games ⟨2026, 1, 20⟩ minimalFutureDfs ∧
      minimalFutureGame.is_scheduled = true) := by
  have hl : fetch_live_games ⟨2026, 1, 15⟩ minimalLiveBoard
      (fun _ => (Option.none, Option.none)) = [minimalLiveGame] := rfl
  have hh : fetch_historical_games ⟨2026, 1, 10⟩ twoRowFinder (fun _ => []) =
      [twoRowFinderGame] := rfl
  have hf : fetch_future_games ⟨2026, 1, 20⟩ minimalFutureDfs =
      [minimalFutureGame] := rfl
  have hlm : minimalLiveGame ∈ fetch_live_games ⟨2026, 1, 15⟩ minimalLiveBoard
      (fun _ => (Option.none, Option.none)) := by
    rw [hl]; exact List.mem_singleton.mpr rfl
  have hhm : twoRowFinderGame ∈ fetch_historical_games ⟨2026, 1, 10⟩ twoRowFinder
      (fun _ => []) := by
    rw [hh]; exact List.mem_singleton.mpr rfl
  have hfm : minimalFutureGame ∈ fetch_future_games ⟨2026, 1, 20⟩ minimalFutureDfs := by
    rw [hf]; exact List.mem_singleton.mpr rfl
  refine ⟨⟨hlm, rfl, ?_⟩, ⟨hhm, ?_⟩, ⟨hfm, ?_⟩⟩
  · exact claim2_scheduled_invariant.1 ⟨2026, 1, 15⟩ minimalLiveBoard
      (fun _ => (Option.none, Option.none)) minimalLiveGame hlm rfl
  · exact claim2_scheduled_invariant.2.1 ⟨2026, 1, 10⟩ twoRowFinder
      (fun _ => []) twoRowFinderGame hhm
  · exact (claim2_scheduled_invariant.2.2 ⟨2026, 1, 20⟩ minimalFutureDfs
      minimalFutureGame hfm).1

/-! ### Claim C3 -/

/-- C3 corrected: the claim says the status formatter never throws for
wrongly typed fields, but a string-valued `period` with a nonempty clock
in the in-progress branch hits the `period <= 4` comparison and raises
`TypeError` — the per-field try/except protects only the scheduled-time
parse. -/
theorem claim3_counterexample :
    parse_game_status (.dict [("gameStatus", .int 2), ("period", .str "2"),
      ("gameClock", .str "PT1M30S")]) = .error .typeError :=
  rfl

/-- C3 amended: for well-typed inputs — `gameStatus` and `period` ints,
`gameStatusText`, `gameClock` and `gameTimeUTC` strings, any of them
missing — the formatter never throws and returns a string, and a
wrongly typed (non-string) `gameTimeUTC` in the not-started branch is
caught and degrades to the fallback; only wrongly typed fields reaching
the in-progress branch (see the counterexample) escape. -/
theorem claim3_well_typed_total :
    (∀ (n p : Int) (txt clk utc : String), ∃ out : String,
      parse_game_status (.dict [("gameStatus", .int n), ("gameStatusText", .str txt),
        ("period", .int p), ("gameClock", .str clk), ("gameTimeUTC", .str utc)]) =
        .ok (.str out)) ∧
    parse_game_status (.dict []) = .ok (.str "Scheduled") ∧
    (∀ v : PyVal, (∀ s, v ≠ .str s) →
      parse_game_status (.dict [("gameStatus", .int 1), ("gameTimeUTC", v)]) =
        .ok (.str "Scheduled")) := by
  refine ⟨?_, rfl, ?_⟩
  · intro n p txt clk utc
    simp [parse_game_status, pyGet, dictGet, List.find?, Bind.bind, Except.bind,
      pure, Except.pure, pyTruthy, pyEqInt, pyReplace, pyLeInt, pySubInt, pyStrOf,
      render_clock]
    repeat' split
    all_goals exact ⟨_, rfl⟩
  · intro v h
    cases v with
    | str s => exact absurd rfl (h s)
    | _ =>
      simp [parse_game_status, pyGet, dictGet, List.find?, Bind.bind, Except.bind,
        pure, Except.pure, pyTruthy, pyReplace, pyEqInt]

/-- C3 witness: a fully populated in-progress record and a non-string
`gameTimeUTC`, both evaluated concretely. -/
theorem claim3_well_typed_total_witness :
    (∃ out : String, parse_game_status (.dict [("gameStatus", .int 2),
      ("gameStatusText", .str "Q2 5:00"), ("period", .int 2),
      ("gameClock", .str "PT5M0.00S"),
      ("gameTimeUTC", .str "2026-01-15T00:00:00Z")]) = .ok (.str out)) ∧
    ((∀ s, PyVal.int 7 ≠ .str s) ∧
      parse_game_status (.dict [("gameStatus", .int 1), ("gameTimeUTC", .int 7)]) =
        .ok (.str "Scheduled")) :=
  ⟨claim3_well_typed_total.1 2 2 "Q2 5:00" "PT5M0.00S" "2026-01-15T00:00:00Z",
   fun s h => PyVal.noConfusion h,
   claim3_well_typed_total.2.2 (.int 7) (fun s h => PyVal.noConfusion h)⟩

/-- C9 witness: idempotence evaluated at a one-game list and a one-name
allow-list. -/
theorem claim9_filter_idempotent_witness :
    filter_games_by_teams (filter_games_by_teams
      [{ id := .str "w", date := ⟨2026, 1, 15⟩, status := .str "Final",
         is_scheduled := false,
         home_team := ⟨.str "BOS", .str "Boston Celtics", .str "", .int 100, Option.none⟩,
         away_team := ⟨.str "NYK", .str "New York Knicks", .str "", .int 90, Option.none⟩ }]
      [PyVal.str "Boston Celtics"]) [PyVal.str "Boston Celtics"] =
    filter_games_by_teams
      [{ id := .str "w", date := ⟨2026, 1, 15⟩, status := .str "Final",
         is_scheduled := false,
         home_team := ⟨.str "BOS", .str "Boston Celtics", .str "", .int 100, Option.none⟩,
         away_team := ⟨.str "NYK", .str "New York Knicks", .str "", .int 90, Option.none⟩ }]
      [PyVal.str "Boston Celtics"] :=
  claim9_filter_idempotent
    [{ id := .str "w", date := ⟨2026, 1, 15⟩, status := .str "Final",
       is_scheduled := false,
       home_team := ⟨.str "BOS", .str "Boston Celtics", .str "", .int 100, Option.none⟩,
       away_team := ⟨.str "NYK", .str "New York Knicks", .str "", .int 90, Option.none⟩ }]
    [PyVal.str "Boston Celtics"]
